import Mathlib

/-!
Formal model of the Places Alarm application, a browser-based spatial
reminder app written in React/TypeScript.  The definitions below are a
shallow embedding of the source files: the location service (distance
computation and place search), the AI suggestion service, and the
top-level App component (application state and its handlers).

Modelling conventions:

* JavaScript numbers are modelled as rationals wherever the code only
  stores and compares them (coordinates, radii, timestamps incidentally
  as naturals), and as real numbers where the code applies
  transcendental functions (the haversine distance).
* A JS Set of strings is modelled as a duplicate-free insertion list; a
  JS Record (object used as a map) is modelled as an association list.
* React state is modelled by explicit state passing.  One run of the
  proximity-check effect reads the committed render snapshot of the
  state while its queued functional updates compose on an accumulator,
  which matches the semantics of setState with updater functions.
* Network and platform effects (fetch, the Gemini call, Math.random,
  Date.now) are modelled by explicit outcome and timestamp parameters.
-/

/-- Geographic coordinate in degrees, from types.ts.  Latitude and
longitude are IEEE doubles in the source; every double is a rational. -/
structure Coordinate where
  lat : ℚ
  lng : ℚ
  deriving DecidableEq

/-- Closed category taxonomy, from types.ts. -/
inductive PlaceCategory where
  | Generic
  | Work
  | Home
  | Shop
  | Food
  | Health
  | Travel
  deriving DecidableEq

/-- A saved place, from types.ts.  Optional TS fields become Option. -/
structure Place where
  id : String
  name : String
  location : Coordinate
  category : PlaceCategory
  radius : ℚ
  notes : Option String
  isCompleted : Bool
  createdAt : ℕ
  listId : Option String
  deriving DecidableEq

/-- An active proximity notification, from types.ts. -/
structure Alert where
  placeId : String
  message : String
  timestamp : ℕ
  deriving DecidableEq

/-- A normalized geocoder hit, from types.ts.  The source keeps lat and
lon as decimal strings produced by Number.toString; the number-to-string
rendering is abstracted away and the numeric value kept. -/
structure SearchResult where
  place_id : ℚ
  lat : ℚ
  lon : ℚ
  display_name : String
  type : String
  deriving DecidableEq

/-! ## Geo math: locationService.calculateDistance -/

/-- Model of the JavaScript Math.atan2 primitive on real arguments,
split by quadrant exactly as the platform function is specified. -/
noncomputable def atan2 (y x : ℝ) : ℝ :=
  if 0 < x then Real.arctan (y / x)
  else if x < 0 ∧ 0 ≤ y then Real.arctan (y / x) + Real.pi
  else if x < 0 ∧ y < 0 then Real.arctan (y / x) - Real.pi
  else if x = 0 ∧ 0 < y then Real.pi / 2
  else if x = 0 ∧ y < 0 then -(Real.pi / 2)
  else 0

/-- The intermediate value `a` of the haversine formula in
calculateDistance: `a = sin(dLat/2) * sin(dLat/2) + cos(lat1) * cos(lat2)
* sin(dLng/2) * sin(dLng/2)` with all angles converted to radians. -/
noncomputable def haversineA (coord1 coord2 : Coordinate) : ℝ :=
  Real.sin (((coord2.lat : ℝ) - (coord1.lat : ℝ)) * Real.pi / 180 / 2) *
      Real.sin (((coord2.lat : ℝ) - (coord1.lat : ℝ)) * Real.pi / 180 / 2) +
    Real.cos ((coord1.lat : ℝ) * Real.pi / 180) *
      Real.cos ((coord2.lat : ℝ) * Real.pi / 180) *
      (Real.sin (((coord2.lng : ℝ) - (coord1.lng : ℝ)) * Real.pi / 180 / 2) *
        Real.sin (((coord2.lng : ℝ) - (coord1.lng : ℝ)) * Real.pi / 180 / 2))

/-- locationService.calculateDistance: haversine distance in meters with
Earth radius R = 6371e3, `c = 2 * atan2(sqrt(a), sqrt(1 - a))`, result
`R * c`. -/
noncomputable def calculateDistance (coord1 coord2 : Coordinate) : ℝ :=
  6371000 * (2 * atan2 (Real.sqrt (haversineA coord1 coord2))
    (Real.sqrt (1 - haversineA coord1 coord2)))

theorem haversineA_comm (coord1 coord2 : Coordinate) :
    haversineA coord1 coord2 = haversineA coord2 coord1 := by
  unfold haversineA
  rw [show ((coord1.lat : ℝ) - (coord2.lat : ℝ)) * Real.pi / 180 / 2 =
        -(((coord2.lat : ℝ) - (coord1.lat : ℝ)) * Real.pi / 180 / 2) by ring,
      show ((coord1.lng : ℝ) - (coord2.lng : ℝ)) * Real.pi / 180 / 2 =
        -(((coord2.lng : ℝ) - (coord1.lng : ℝ)) * Real.pi / 180 / 2) by ring,
      Real.sin_neg, Real.sin_neg]
  ring

theorem haversineA_self (A : Coordinate) : haversineA A A = 0 := by
  unfold haversineA
  simp

theorem calculateDistance_self (A : Coordinate) : calculateDistance A A = 0 := by
  unfold calculateDistance
  rw [haversineA_self, Real.sqrt_zero, sub_zero, Real.sqrt_one]
  unfold atan2
  rw [if_pos (by norm_num : (0 : ℝ) < 1)]
  simp

theorem haversineA_equator :
    haversineA ⟨0, 0⟩ ⟨0, 1⟩ =
      Real.sin (Real.pi / 360) * Real.sin (Real.pi / 360) := by
  unfold haversineA
  norm_num
  rw [show Real.pi / 180 / 2 = Real.pi / 360 by ring]

theorem calculateDistance_equator :
    calculateDistance ⟨0, 0⟩ ⟨0, 1⟩ = 6371000 * (Real.pi / 180) := by
  have hpi := Real.pi_pos
  have hθpos : 0 < Real.pi / 360 := by linarith
  have hθlt : Real.pi / 360 < Real.pi / 2 := by linarith
  have hsin : 0 ≤ Real.sin (Real.pi / 360) :=
    Real.sin_nonneg_of_nonneg_of_le_pi (by linarith) (by linarith)
  have hcos : 0 < Real.cos (Real.pi / 360) :=
    Real.cos_pos_of_mem_Ioo ⟨by linarith, hθlt⟩
  unfold calculateDistance
  rw [haversineA_equator]
  have h1ms : 1 - Real.sin (Real.pi / 360) * Real.sin (Real.pi / 360) =
      Real.cos (Real.pi / 360) * Real.cos (Real.pi / 360) := by
    linear_combination (-1 : ℝ) * Real.sin_sq_add_cos_sq (Real.pi / 360)
  rw [h1ms, Real.sqrt_mul_self hsin, Real.sqrt_mul_self (le_of_lt hcos)]
  unfold atan2
  rw [if_pos hcos, ← Real.tan_eq_sin_div_cos,
      Real.arctan_tan (by linarith) hθlt]
  ring

/-- C9: the computed distance is symmetric in its two coordinates, zero
on the diagonal, and on the pair (0,0) and (0,1) (one degree of
longitude at the equator) it equals 6371000 * pi / 180, which is within
one meter of 111195 meters. -/
theorem claim9_distance_symmetry_zero_value :
    (∀ A B : Coordinate, calculateDistance A B = calculateDistance B A) ∧
    (∀ A : Coordinate, calculateDistance A A = 0) ∧
    |calculateDistance ⟨0, 0⟩ ⟨0, 1⟩ - 111195| < 1 := by
  refine ⟨?_, calculateDistance_self, ?_⟩
  · intro A B
    unfold calculateDistance
    rw [haversineA_comm]
  · rw [calculateDistance_equator, abs_lt]
    have h1 : (3.141592 : ℝ) < Real.pi := Real.pi_gt_d6
    have h2 : Real.pi < 3.141593 := Real.pi_lt_d6
    norm_num at h1 h2
    constructor <;> nlinarith

/-! ## Application state (App.tsx)

The App component owns the place collection, the active alerts, the two
pieces of alert-suppression bookkeeping, the selection, and the draft
buffers.  UI-only pieces of state (search results, loading flags, the
inline name/note edit buffers, the live user location) do not interact
with any claim and are carried by the handlers modelled here only
through explicit parameters. -/

structure AppState where
  places : List Place
  activeAlerts : List Alert
  alertedPlaceIds : List String
  snoozedPlaceIds : List (String × ℕ)
  selectedPlaceId : Option String
  draftLocation : Option Coordinate
  draftName : String
  draftNote : String
  deriving DecidableEq

/-- Membership test of the JS Set of already-alerted place ids. -/
def setHas (l : List String) (x : String) : Bool :=
  l.contains x

/-- JS Set.add: appends the element if it is not already present. -/
def setAdd (l : List String) (x : String) : List String :=
  if l.contains x then l else l ++ [x]

/-- JS Set.delete: removes the element. -/
def setDelete (l : List String) (x : String) : List String :=
  l.filter (fun y => y ≠ x)

/-- Lookup in the JS record mapping place id to snooze expiry. -/
def recordGet (m : List (String × ℕ)) (k : String) : Option ℕ :=
  (m.find? (fun kv => kv.1 = k)).map (fun kv => kv.2)

/-- JS spread update of a record at one key: any previous binding for
the key is superseded. -/
def recordSet (m : List (String × ℕ)) (k : String) (v : ℕ) : List (String × ℕ) :=
  m.filter (fun kv => kv.1 ≠ k) ++ [(k, v)]

/-- JS delete of one record key. -/
def recordDelete (m : List (String × ℕ)) (k : String) : List (String × ℕ) :=
  m.filter (fun kv => kv.1 ≠ k)

/-- The default alert radius in meters, from the constants module of
the repository (concatenated at the end of the Sidebar source file):
export const PROXIMITY_THRESHOLD_METERS = 200. -/
def PROXIMITY_THRESHOLD_METERS : ℚ := 200

/-- Initial mock data of App.tsx: the empty place list. -/
def INITIAL_TASKS : List Place := []

/-- The App component initial state: all useState initial values. -/
def initialState : AppState :=
  { places := INITIAL_TASKS
    activeAlerts := []
    alertedPlaceIds := []
    snoozedPlaceIds := []
    selectedPlaceId := none
    draftLocation := none
    draftName := ""
    draftNote := "" }

/-- Number of active alerts carrying a given place id. -/
def alertCount (s : AppState) (id : String) : ℕ :=
  (s.activeAlerts.filter (fun a => a.placeId = id)).length

/-! ## AI suggestion service (geminiService.ts) -/

/-- The parsed JSON shape returned by the Gemini call. -/
structure Enhancement where
  category : PlaceCategory
  suggestedNote : String
  deriving DecidableEq

/-- Outcome of the generateContent network call: a successful response
whose text may be empty or parse to an Enhancement, or a thrown error
(network failure, bad JSON, quota, ...). -/
inductive GeminiOutcome where
  | success (parsed : Option Enhancement)
  | failure
  deriving DecidableEq

/-- geminiService.suggestCategoryAndNotes: on success returns the parsed
object, or null when the response text is empty; on any thrown error it
is caught and the fallback object (category Generic, empty note) is
returned. -/
def suggestCategoryAndNotes : GeminiOutcome → Option Enhancement
  | GeminiOutcome.success parsed => parsed
  | GeminiOutcome.failure =>
      some { category := PlaceCategory.Generic, suggestedNote := "" }

/-! ## App handlers (App.tsx) -/

/-- The id given to a new place: the given id if supplied, otherwise
Date.now().toString(). -/
def newPlaceId (now : ℕ) (givenId : Option String) : String :=
  givenId.getD (Nat.repr now)

/-- handleAddPlace (creation part): builds the new place with category
Generic, the default radius, isCompleted false and notes defaulted to
the empty string, prepends it to the collection, and returns the id.
The asynchronous AI enhancement is modelled separately by
aiEnhancementCallback. -/
def handleAddPlace (now : ℕ) (location : Coordinate) (name : String)
    (userNotes : Option String) (givenId : Option String) (s : AppState) :
    AppState × String :=
  let id := newPlaceId now givenId
  let initialNote := userNotes.getD ""
  let newPlace : Place :=
    { id := id
      name := name
      location := location
      category := PlaceCategory.Generic
      radius := PROXIMITY_THRESHOLD_METERS
      notes := some initialNote
      isCompleted := false
      createdAt := now
      listId := none }
  ({ s with places := newPlace :: s.places }, id)

/-- The then-continuation of the AI enhancement inside handleAddPlace:
when the suggestion result is non-null, the place with the captured id
gets the suggested category, and its notes are overwritten with the
suggested note only when the user supplied no note originally
(initialNote falsy). -/
def aiEnhancementCallback (id : String) (initialNote : String)
    (enhancement : Option Enhancement) (s : AppState) : AppState :=
  match enhancement with
  | none => s
  | some e =>
      { s with places := s.places.map (fun p =>
          if p.id = id then
            { p with
              category := e.category
              notes := some (if initialNote ≠ "" then initialNote else e.suggestedNote) }
          else p) }

/-- Model of JS String.prototype.trim: drop leading and trailing
whitespace.  Defined on the character list so that it evaluates by
kernel reduction (String.trim in core uses Substring primitives the
kernel cannot unfold). -/
def jsTrim (s : String) : String :=
  String.mk (((s.data.dropWhile Char.isWhitespace).reverse.dropWhile
    Char.isWhitespace).reverse)

/-- handleMapClick: opens a draft at the clicked coordinate with empty
buffers and clears the selection. -/
def handleMapClick (coord : Coordinate) (s : AppState) : AppState :=
  { s with draftLocation := some coord, draftName := "", draftNote := "",
           selectedPlaceId := none }

/-- handleConfirmDraft: captures the draft data (trimming the name with
fallback "New Place", trimming the note), clears all three draft
buffers, creates the place synchronously and selects it. -/
def handleConfirmDraft (now : ℕ) (s : AppState) : AppState :=
  match s.draftLocation with
  | none => s
  | some location =>
      let name := if jsTrim s.draftName = "" then "New Place" else jsTrim s.draftName
      let note := jsTrim s.draftNote
      let s1 := { s with draftLocation := none, draftName := "", draftNote := "" }
      let pr := handleAddPlace now location name (some note) none s1
      { pr.1 with selectedPlaceId := some pr.2 }

/-- handleCancelDraft: clears the three draft buffers. -/
def handleCancelDraft (s : AppState) : AppState :=
  { s with draftLocation := none, draftName := "", draftNote := "" }

/-- handlePlaceMove: replaces the location of the place with the given
id, and clears its alerted flag, its snooze entry and any active alert
for it, so a relocated place behaves as fresh. -/
def handlePlaceMove (id : String) (newLocation : Coordinate) (s : AppState) :
    AppState :=
  { s with
    places := s.places.map (fun p =>
      if p.id = id then { p with location := newLocation } else p)
    alertedPlaceIds := setDelete s.alertedPlaceIds id
    snoozedPlaceIds := recordDelete s.snoozedPlaceIds id
    activeAlerts := s.activeAlerts.filter (fun a => a.placeId ≠ id) }

/-- handleDraftMove: updates only the draft location buffer. -/
def handleDraftMove (newLocation : Coordinate) (s : AppState) : AppState :=
  { s with draftLocation := some newLocation }

/-- handleToggleTask: flips the completion flag of the matching place. -/
def handleToggleTask (id : String) (s : AppState) : AppState :=
  { s with places := s.places.map (fun p =>
      if p.id = id then { p with isCompleted := !p.isCompleted } else p) }

/-- handleDeleteTask: removes the matching place from the collection and
clears the selection when the deleted place was selected. -/
def handleDeleteTask (id : String) (s : AppState) : AppState :=
  { s with
    places := s.places.filter (fun p => p.id ≠ id)
    selectedPlaceId := if s.selectedPlaceId = some id then none
                       else s.selectedPlaceId }

/-- A Partial update of a place as passed to handleUpdatePlace by the
UI call sites (name, notes, category, radius, location). -/
structure PlaceUpdate where
  name : Option String := none
  notes : Option String := none
  category : Option PlaceCategory := none
  radius : Option ℚ := none
  location : Option Coordinate := none

/-- The object-spread merge of a partial update into a place. -/
def mergeUpdate (p : Place) (u : PlaceUpdate) : Place :=
  { p with
    name := u.name.getD p.name
    notes := match u.notes with | some v => some v | none => p.notes
    category := u.category.getD p.category
    radius := u.radius.getD p.radius
    location := u.location.getD p.location }

/-- handleUpdatePlace: merges a partial set of field changes into the
matching place. -/
def handleUpdatePlace (id : String) (u : PlaceUpdate) (s : AppState) : AppState :=
  { s with places := s.places.map (fun p =>
      if p.id = id then mergeUpdate p u else p) }

/-- handleDismissAlert: removes the alert from the active list only; the
place id stays in the alerted-this-entry set. -/
def handleDismissAlert (placeId : String) (s : AppState) : AppState :=
  { s with activeAlerts := s.activeAlerts.filter (fun a => a.placeId ≠ placeId) }

/-- handleSnoozeAlert: records a snooze expiry of now plus five minutes
(300000 ms) for the place, removes its alert from the active list, and
clears its alerted-this-entry flag. -/
def handleSnoozeAlert (now : ℕ) (placeId : String) (s : AppState) : AppState :=
  { s with
    snoozedPlaceIds := recordSet s.snoozedPlaceIds placeId (now + 5 * 60 * 1000)
    activeAlerts := s.activeAlerts.filter (fun a => a.placeId ≠ placeId)
    alertedPlaceIds := setDelete s.alertedPlaceIds placeId }

/-! ## The proximity-check effect (App.tsx)

The effect runs whenever its dependencies change.  It reads the render
snapshot of the suppression state and the active alerts, and queues
functional updates; the snapshot is the state the effect closed over,
while the queued updates compose, which the fold below reproduces with
a snapshot argument and an accumulator.  The haversine distance on IEEE
doubles is abstracted as an explicit rational-valued distance function
parameter, so every theorem below holds for any distance oracle. -/

/-- The snooze test of the effect: a place is skipped when it has a
snooze entry whose expiry is truthy and strictly in the future. -/
def snoozeSuppressed (s : AppState) (id : String) (now : ℕ) : Bool :=
  match recordGet s.snoozedPlaceIds id with
  | some snoozeExpiry => snoozeExpiry ≠ 0 && now < snoozeExpiry
  | none => false

/-- The body of the forEach over places inside the proximity effect.
Reads of suppression state and active alerts use the snapshot s; the
queued updates compose on the accumulator acc. -/
def proximityCheckStep (dist : Coordinate → Coordinate → ℚ) (now : ℕ)
    (userLocation : Coordinate) (s : AppState) (acc : AppState)
    (place : Place) : AppState :=
  if place.isCompleted then acc
  else if dist userLocation place.location ≤ place.radius then
    if snoozeSuppressed s place.id now then acc
    else if !setHas s.alertedPlaceIds place.id
        && !s.activeAlerts.any (fun a => a.placeId = place.id) then
      { acc with
        activeAlerts := acc.activeAlerts ++
          [{ placeId := place.id
             message := "You are near " ++ place.name ++ "!"
             timestamp := now }]
        alertedPlaceIds := setAdd acc.alertedPlaceIds place.id }
    else acc
  else
    if setHas s.alertedPlaceIds place.id then
      { acc with alertedPlaceIds := setDelete acc.alertedPlaceIds place.id }
    else acc

/-- One run of the proximity-check effect: fold the step over the place
collection read from the snapshot. -/
def proximityCheck (dist : Coordinate → Coordinate → ℚ) (now : ℕ)
    (userLocation : Coordinate) (s : AppState) : AppState :=
  s.places.foldl (proximityCheckStep dist now userLocation s) s

/-- A sequence of proximity evaluations, each with its own Date.now()
timestamp and user location, with no user action in between. -/
def runProximity (dist : Coordinate → Coordinate → ℚ)
    (evals : List (ℕ × Coordinate)) (s : AppState) : AppState :=
  evals.foldl (fun st e => proximityCheck dist e.1 e.2 st) s

/-- The trigger condition of one place in one evaluation, phrased on the
snapshot: not completed, inside the radius, not snoozed, not alerted
during the current entry, and no active alert shown for it. -/
def shouldTrigger (dist : Coordinate → Coordinate → ℚ) (now : ℕ)
    (userLocation : Coordinate) (s : AppState) (place : Place) : Bool :=
  !place.isCompleted
    && (dist userLocation place.location ≤ place.radius)
    && !snoozeSuppressed s place.id now
    && !setHas s.alertedPlaceIds place.id
    && !s.activeAlerts.any (fun a => a.placeId = place.id)

/-! ## Place search (locationService.searchPlaces, primary POI variant)

The query-cleaning regular expression
`(\s+|^)(near me|nearby|closest|near)(\s+|$)` with flags g and i is
modelled by a left-to-right scanner with the exact alternation order
and greedy whitespace runs of the JS engine; each match is replaced by
one space and scanning resumes after the match.  The network call is
abstracted into an explicit outcome; the first component of the result
records whether the call was issued at all. -/

/-- Whitespace as matched by the regex class backslash-s, restricted to
the ASCII whitespace recognised by Char.isWhitespace. -/
def isJsWhitespace (c : Char) : Bool :=
  c.isWhitespace

/-- Case-insensitive match of one keyword (given lowercase) against the
head of the input; returns the rest of the input on success. -/
def matchKeywordChars : List Char → List Char → Option (List Char)
  | [], rest => some rest
  | _ :: _, [] => none
  | k :: ks, c :: cs => if c.toLower = k then matchKeywordChars ks cs else none

/-- The filler alternatives, in the alternation order of the regex. -/
def fillerKeywords : List (List Char) :=
  ["near me".data, "nearby".data, "closest".data, "near".data]

/-- The trailing group of the regex: a greedy whitespace run, or the end
of the input. -/
def matchBoundary (rest : List Char) : Option (List Char) :=
  match rest with
  | [] => some []
  | c :: cs => if isJsWhitespace c then some (cs.dropWhile isJsWhitespace) else none

/-- Try each keyword alternative in order, each followed by the trailing
group; a keyword whose trailing group fails backtracks to the next
alternative. -/
def matchFillerAt : List (List Char) → List Char → Option (List Char)
  | [], _ => none
  | kw :: kws, cs =>
    match matchKeywordChars kw cs with
    | some rest =>
        match matchBoundary rest with
        | some rest2 => some rest2
        | none => matchFillerAt kws cs
    | none => matchFillerAt kws cs

/-- Attempt a full match of the regex at the current position: the
leading group is a greedy whitespace run when one starts here (keywords
never start with whitespace, so the maximal run never backtracks), and
otherwise the empty start-of-string anchor, valid only at position 0. -/
def matchFiller (atStart : Bool) (cs : List Char) : Option (List Char) :=
  match cs with
  | [] => none
  | c :: _ =>
    match (if isJsWhitespace c
           then matchFillerAt fillerKeywords (cs.dropWhile isJsWhitespace)
           else none) with
    | some rest => some rest
    | none => if atStart then matchFillerAt fillerKeywords cs else none

/-- Global scan of String.replace with the g flag: at each position try
a match; on success emit the single-space replacement and resume after
the match, otherwise emit the character and advance.  The fuel is an
upper bound on the number of steps; the initial length of the input
always suffices because every step consumes at least one character. -/
def replaceFillersAux : ℕ → Bool → List Char → List Char
  | 0, _, cs => cs
  | Nat.succ fuel, atStart, cs =>
    match cs with
    | [] => []
    | c :: cs' =>
      match matchFiller atStart (c :: cs') with
      | some rest => ' ' :: replaceFillersAux fuel false rest
      | none => c :: replaceFillersAux fuel false cs'

/-- The cleaned query of searchPlaces: strip the filler phrases, then
trim. -/
def cleanedQuery (query : String) : String :=
  jsTrim (String.mk (replaceFillersAux query.data.length true query.data))

/-- The properties object of one GeoJSON feature returned by the Photon
API; absent JSON fields become none. -/
structure FeatureProperties where
  name : Option String
  street : Option String
  city : Option String
  state : Option String
  country : Option String
  osm_key : Option String
  osm_value : Option String
  osm_id : Option ℚ
  deriving DecidableEq

/-- One GeoJSON feature: properties plus geometry coordinates, which the
source data stores longitude first. -/
structure Feature where
  properties : FeatureProperties
  lonCoordinate : ℚ
  latCoordinate : ℚ
  deriving DecidableEq

/-- JS string disjunction a || b: b when a is undefined or empty. -/
def jsStringOr (a : Option String) (b : String) : String :=
  match a with
  | some v => if v = "" then b else v
  | none => b

/-- charAt(0).toUpperCase() + slice(1). -/
def capitalizeFirst (s : String) : String :=
  match s.data with
  | [] => ""
  | c :: cs => String.mk (c.toUpper :: cs)

/-- The per-feature mapping of searchPlaces to the SearchResult shape.
Math.random for a missing osm id is abstracted as a parameter. -/
def mapFeature (randomFallbackId : ℚ) (f : Feature) : SearchResult :=
  let name := jsStringOr f.properties.name (jsStringOr f.properties.street "Unknown Place")
  let details := String.intercalate ", "
    ((([f.properties.street, f.properties.city, f.properties.state,
        f.properties.country].filterMap id).filter (fun d => d ≠ "")).filter
      (fun d => d ≠ name))
  let typeLabel := jsStringOr f.properties.osm_value
    (jsStringOr f.properties.osm_key "place")
  { place_id := f.properties.osm_id.getD randomFallbackId
    lat := f.latCoordinate
    lon := f.lonCoordinate
    display_name := if details = "" then name else name ++ ", " ++ details
    type := capitalizeFirst typeLabel }

/-- Outcome of the fetch to the search provider. -/
inductive FetchOutcome where
  | success (features : List Feature)
  | httpError
  | abortError
  | networkError
  deriving DecidableEq

/-- locationService.searchPlaces (primary variant): clean the query and
short-circuit to an empty list with no network call when the cleaned
query is empty; otherwise issue the call, map a successful response, and
absorb a non-ok response (thrown and caught), an abort, or any other
error into an empty list.  The Bool records whether the network call was
issued. -/
def searchPlaces (query : String) (randomFallbackId : ℚ) (net : FetchOutcome) :
    Bool × List SearchResult :=
  let cq := cleanedQuery query
  if cq = "" then (false, [])
  else
    match net with
    | FetchOutcome.success features =>
        (true, features.map (mapFeature randomFallbackId))
    | FetchOutcome.httpError => (true, [])
    | FetchOutcome.abortError => (true, [])
    | FetchOutcome.networkError => (true, [])

/-! ## Search claims -/

/-- C8: for every query, each failing outcome of the underlying call
(non-ok HTTP response, deliberate abort, any other network error) is
absorbed into an empty result list; the error never reaches the caller,
which is reflected in searchPlaces being a total function into a plain
result pair. -/
theorem claim8_search_errors_absorbed (query : String) (rid : ℚ) :
    (searchPlaces query rid FetchOutcome.httpError).2 = [] ∧
    (searchPlaces query rid FetchOutcome.abortError).2 = [] ∧
    (searchPlaces query rid FetchOutcome.networkError).2 = [] := by
  refine ⟨?_, ?_, ?_⟩ <;>
    · unfold searchPlaces
      by_cases h : cleanedQuery query = "" <;> simp [h]

/-- C7: the primary search first cleans the query (stripping the filler
phrases and trimming); an empty cleaned query short-circuits to an empty
result list with no network call issued; the literal query
"pizza near me" cleans to exactly "pizza", and "nearby" alone cleans to
the empty string and short-circuits. -/
theorem claim7_query_cleaning :
    (∀ (query : String) (rid : ℚ) (net : FetchOutcome),
      cleanedQuery query = "" → searchPlaces query rid net = (false, [])) ∧
    cleanedQuery "pizza near me" = "pizza" ∧
    cleanedQuery "nearby" = "" ∧
    (∀ (rid : ℚ) (net : FetchOutcome),
      searchPlaces "nearby" rid net = (false, [])) := by
  have hshort : ∀ (query : String) (rid : ℚ) (net : FetchOutcome),
      cleanedQuery query = "" → searchPlaces query rid net = (false, []) := by
    intro query rid net h
    unfold searchPlaces
    simp [h]
  refine ⟨hshort, by decide, by decide, ?_⟩
  intro rid net
  exact hshort "nearby" rid net (by decide)

/-- Witness for C7: the hypothesis of the short-circuit conjunct is
discharged at the concrete query "near", which cleans to the empty
string. -/
theorem claim7_query_cleaning_witness :
    searchPlaces "near" 0 FetchOutcome.httpError = (false, []) :=
  claim7_query_cleaning.1 "near" 0 FetchOutcome.httpError (by decide)

/-! ## Frame claims on delete and move -/

theorem setHas_setDelete (l : List String) (x : String) :
    setHas (setDelete l x) x = false := by
  simp only [setHas, setDelete]
  by_cases h : x ∈ l.filter (fun y => decide (y ≠ x)) <;>
    simp_all [List.elem_iff, List.mem_filter]

theorem recordGet_recordDelete (m : List (String × ℕ)) (k : String) :
    recordGet (recordDelete m k) k = none := by
  unfold recordGet recordDelete
  rw [List.find?_eq_none.mpr]
  · rfl
  · intro kv hkv
    have h2 := (List.mem_filter.mp hkv).2
    simp only [decide_eq_true_eq] at h2 ⊢
    exact h2

theorem alertCount_filter_ne (s : AppState) (id : String) :
    alertCount { s with activeAlerts :=
      s.activeAlerts.filter (fun a => a.placeId ≠ id) } id = 0 := by
  simp only [alertCount, List.filter_filter]
  rw [List.length_eq_zero, List.filter_eq_nil_iff]
  intro a _
  by_cases h : a.placeId = id <;> simp [h]

/-- C10: deleting a place removes exactly the places carrying that id
from the collection and clears the selection when the deleted place was
selected; the active alerts, the alerted-this-entry set and the snooze
map are untouched, so an alert for the deleted place stays visible until
explicitly dismissed or snoozed. -/
theorem claim10_delete_frame (s : AppState) (id : String) :
    (∀ p : Place, p ∈ (handleDeleteTask id s).places ↔ p ∈ s.places ∧ p.id ≠ id) ∧
    (handleDeleteTask id s).activeAlerts = s.activeAlerts ∧
    (handleDeleteTask id s).alertedPlaceIds = s.alertedPlaceIds ∧
    (handleDeleteTask id s).snoozedPlaceIds = s.snoozedPlaceIds ∧
    (handleDeleteTask id s).selectedPlaceId =
      (if s.selectedPlaceId = some id then none else s.selectedPlaceId) := by
  refine ⟨?_, rfl, rfl, rfl, rfl⟩
  intro p
  simp [handleDeleteTask, List.mem_filter]

/-- C4: moving a place replaces the location of exactly the entries
carrying that id, position by position, leaving every other field and
every other place unchanged, and clears the alerted flag, the snooze
entry and every active alert for that id, whatever the prior state. -/
theorem claim4_move_resets (s : AppState) (id : String)
    (newLocation : Coordinate) (hpresent : ∃ p ∈ s.places, p.id = id) :
    (∀ i : ℕ, (handlePlaceMove id newLocation s).places[i]? =
      (s.places[i]?).map (fun p =>
        if p.id = id then { p with location := newLocation } else p)) ∧
    setHas (handlePlaceMove id newLocation s).alertedPlaceIds id = false ∧
    recordGet (handlePlaceMove id newLocation s).snoozedPlaceIds id = none ∧
    alertCount (handlePlaceMove id newLocation s) id = 0 := by
  refine ⟨?_, ?_, ?_, ?_⟩
  · intro i
    simp [handlePlaceMove, List.getElem?_map]
  · exact setHas_setDelete s.alertedPlaceIds id
  · exact recordGet_recordDelete s.snoozedPlaceIds id
  · exact alertCount_filter_ne { s with
      places := s.places.map (fun p =>
        if p.id = id then { p with location := newLocation } else p)
      alertedPlaceIds := setDelete s.alertedPlaceIds id
      snoozedPlaceIds := recordDelete s.snoozedPlaceIds id } id

/-- Witness for C4: the move theorem applied to a concrete one-place
state with a live alert, a snooze entry and the alerted flag set. -/
theorem claim4_move_resets_witness :
    setHas (handlePlaceMove "7" ⟨3, 4⟩
      { places := [{ id := "7", name := "Cafe", location := ⟨0, 0⟩,
                     category := PlaceCategory.Food, radius := 200,
                     notes := some "", isCompleted := false, createdAt := 1,
                     listId := none }]
        activeAlerts := [{ placeId := "7", message := "m", timestamp := 1 }]
        alertedPlaceIds := ["7"]
        snoozedPlaceIds := [("7", 900)]
        selectedPlaceId := none
        draftLocation := none
        draftName := ""
        draftNote := "" }).alertedPlaceIds "7" = false ∧
    alertCount (handlePlaceMove "7" ⟨3, 4⟩
      { places := [{ id := "7", name := "Cafe", location := ⟨0, 0⟩,
                     category := PlaceCategory.Food, radius := 200,
                     notes := some "", isCompleted := false, createdAt := 1,
                     listId := none }]
        activeAlerts := [{ placeId := "7", message := "m", timestamp := 1 }]
        alertedPlaceIds := ["7"]
        snoozedPlaceIds := [("7", 900)]
        selectedPlaceId := none
        draftLocation := none
        draftName := ""
        draftNote := "" }) "7" = 0 := by
  have h := claim4_move_resets
    { places := [{ id := "7", name := "Cafe", location := ⟨0, 0⟩,
                   category := PlaceCategory.Food, radius := 200,
                   notes := some "", isCompleted := false, createdAt := 1,
                   listId := none }]
      activeAlerts := [{ placeId := "7", message := "m", timestamp := 1 }]
      alertedPlaceIds := ["7"]
      snoozedPlaceIds := [("7", 900)]
      selectedPlaceId := none
      draftLocation := none
      draftName := ""
      draftNote := "" } "7" ⟨3, 4⟩ (by decide)
  exact ⟨h.2.1, h.2.2.2⟩

/-! ## Draft confirmation and AI enrichment claims -/

/-- C5: confirming a draft creates, at the head of the collection, a
place whose name is the trimmed draft name with fallback "New Place"
when the trimmed name is empty and whose notes are the trimmed draft
note; all three draft buffers are cleared, the new place is selected,
and a second confirmation on the resulting state is a no-op. -/
theorem claim5_confirm_draft (s : AppState) (now now2 : ℕ)
    (location : Coordinate) (hdraft : s.draftLocation = some location) :
    (handleConfirmDraft now s).places.head? = some
      { id := Nat.repr now
        name := if jsTrim s.draftName = "" then "New Place" else jsTrim s.draftName
        location := location
        category := PlaceCategory.Generic
        radius := PROXIMITY_THRESHOLD_METERS
        notes := some (jsTrim s.draftNote)
        isCompleted := false
        createdAt := now
        listId := none } ∧
    (handleConfirmDraft now s).places.length = s.places.length + 1 ∧
    (handleConfirmDraft now s).draftLocation = none ∧
    (handleConfirmDraft now s).draftName = "" ∧
    (handleConfirmDraft now s).draftNote = "" ∧
    (handleConfirmDraft now s).selectedPlaceId = some (Nat.repr now) ∧
    handleConfirmDraft now2 (handleConfirmDraft now s) = handleConfirmDraft now s := by
  have h1 : handleConfirmDraft now s =
      { s with
        places :=
          { id := Nat.repr now
            name := if jsTrim s.draftName = "" then "New Place"
                    else jsTrim s.draftName
            location := location
            category := PlaceCategory.Generic
            radius := PROXIMITY_THRESHOLD_METERS
            notes := some (jsTrim s.draftNote)
            isCompleted := false
            createdAt := now
            listId := none } :: s.places
        draftLocation := none
        draftName := ""
        draftNote := ""
        selectedPlaceId := some (Nat.repr now) } := by
    unfold handleConfirmDraft
    rw [hdraft]
    simp [handleAddPlace, newPlaceId]
  rw [h1]
  refine ⟨rfl, rfl, rfl, rfl, rfl, rfl, ?_⟩
  unfold handleConfirmDraft
  rfl

/-- Witness for C5: confirming a draft whose name buffer is all
whitespace and whose note buffer carries surrounding whitespace yields
the name "New Place" and the trimmed note, and a repeated confirmation
changes nothing. -/
theorem claim5_confirm_draft_witness :
    ((handleConfirmDraft 7 { initialState with
        draftLocation := some ⟨1, 2⟩, draftName := "   ",
        draftNote := "  bring keys  " }).places.head?.map Place.name =
      some "New Place") ∧
    ((handleConfirmDraft 7 { initialState with
        draftLocation := some ⟨1, 2⟩, draftName := "   ",
        draftNote := "  bring keys  " }).places.head?.map Place.notes =
      some (some "bring keys")) ∧
    (handleConfirmDraft 9 (handleConfirmDraft 7 { initialState with
        draftLocation := some ⟨1, 2⟩, draftName := "   ",
        draftNote := "  bring keys  " }) =
      handleConfirmDraft 7 { initialState with
        draftLocation := some ⟨1, 2⟩, draftName := "   ",
        draftNote := "  bring keys  " }) := by
  have h := claim5_confirm_draft { initialState with
      draftLocation := some ⟨1, 2⟩, draftName := "   ",
      draftNote := "  bring keys  " } 7 9 ⟨1, 2⟩ rfl
  refine ⟨?_, ?_, h.2.2.2.2.2.2⟩
  · rw [h.1]
    decide
  · rw [h.1]
    decide

/-- C6: a completed AI enrichment on a freshly created, otherwise
unedited place sets the suggested category; it keeps the notes exactly
when the user supplied a non-empty note at creation and otherwise
installs the suggested note; a failed suggestion call resolves to the
fallback object (category Generic, empty suggested note), so the
category becomes Generic and empty notes stay the empty string rather
than absent. -/
theorem claim6_enrichment (now : ℕ) (location : Coordinate) (name : String)
    (userNotes : Option String) (givenId : Option String) (s : AppState)
    (enh : Enhancement) :
    (userNotes.getD "" ≠ "" →
      (aiEnhancementCallback (handleAddPlace now location name userNotes givenId s).2
          (userNotes.getD "")
          (suggestCategoryAndNotes (GeminiOutcome.success (some enh)))
          (handleAddPlace now location name userNotes givenId s).1).places.head? =
        some { id := newPlaceId now givenId, name := name, location := location,
               category := enh.category, radius := PROXIMITY_THRESHOLD_METERS,
               notes := some (userNotes.getD ""), isCompleted := false,
               createdAt := now, listId := none }) ∧
    (userNotes.getD "" = "" →
      (aiEnhancementCallback (handleAddPlace now location name userNotes givenId s).2
          (userNotes.getD "")
          (suggestCategoryAndNotes (GeminiOutcome.success (some enh)))
          (handleAddPlace now location name userNotes givenId s).1).places.head? =
        some { id := newPlaceId now givenId, name := name, location := location,
               category := enh.category, radius := PROXIMITY_THRESHOLD_METERS,
               notes := some enh.suggestedNote, isCompleted := false,
               createdAt := now, listId := none }) ∧
    suggestCategoryAndNotes GeminiOutcome.failure =
      some { category := PlaceCategory.Generic, suggestedNote := "" } ∧
    (userNotes.getD "" = "" →
      (aiEnhancementCallback (handleAddPlace now location name userNotes givenId s).2
          (userNotes.getD "")
          (suggestCategoryAndNotes GeminiOutcome.failure)
          (handleAddPlace now location name userNotes givenId s).1).places.head? =
        some { id := newPlaceId now givenId, name := name, location := location,
               category := PlaceCategory.Generic,
               radius := PROXIMITY_THRESHOLD_METERS,
               notes := some "", isCompleted := false,
               createdAt := now, listId := none }) := by
  refine ⟨?_, ?_, rfl, ?_⟩ <;>
    · intro h
      simp [handleAddPlace, aiEnhancementCallback, suggestCategoryAndNotes,
        newPlaceId, h]

/-- Witness for C6: a place created with the note "milk" keeps it while
gaining the suggested category; a place created without a note receives
the suggested note on success, and on failure ends Generic with an empty
note string. -/
theorem claim6_enrichment_witness :
    ((aiEnhancementCallback
        (handleAddPlace 5 ⟨0, 0⟩ "Pharmacy" (some "milk") none initialState).2
        ((some "milk").getD "")
        (suggestCategoryAndNotes (GeminiOutcome.success
          (some { category := PlaceCategory.Health, suggestedNote := "Refill" })))
        (handleAddPlace 5 ⟨0, 0⟩ "Pharmacy" (some "milk") none
          initialState).1).places.head? =
      some { id := "5", name := "Pharmacy", location := ⟨0, 0⟩,
             category := PlaceCategory.Health, radius := 200,
             notes := some "milk", isCompleted := false, createdAt := 5,
             listId := none }) ∧
    ((aiEnhancementCallback
        (handleAddPlace 5 ⟨0, 0⟩ "Pharmacy" none none initialState).2
        ((none : Option String).getD "")
        (suggestCategoryAndNotes (GeminiOutcome.success
          (some { category := PlaceCategory.Health, suggestedNote := "Refill" })))
        (handleAddPlace 5 ⟨0, 0⟩ "Pharmacy" none none
          initialState).1).places.head? =
      some { id := "5", name := "Pharmacy", location := ⟨0, 0⟩,
             category := PlaceCategory.Health, radius := 200,
             notes := some "Refill", isCompleted := false, createdAt := 5,
             listId := none }) ∧
    ((aiEnhancementCallback
        (handleAddPlace 5 ⟨0, 0⟩ "Pharmacy" none none initialState).2
        ((none : Option String).getD "")
        (suggestCategoryAndNotes GeminiOutcome.failure)
        (handleAddPlace 5 ⟨0, 0⟩ "Pharmacy" none none
          initialState).1).places.head? =
      some { id := "5", name := "Pharmacy", location := ⟨0, 0⟩,
             category := PlaceCategory.Generic, radius := 200,
             notes := some "", isCompleted := false, createdAt := 5,
             listId := none }) := by
  have h := claim6_enrichment 5 ⟨0, 0⟩ "Pharmacy" (some "milk") none initialState
    { category := PlaceCategory.Health, suggestedNote := "Refill" }
  have h2 := claim6_enrichment 5 ⟨0, 0⟩ "Pharmacy" none none initialState
    { category := PlaceCategory.Health, suggestedNote := "Refill" }
  exact ⟨by simpa [PROXIMITY_THRESHOLD_METERS] using h.1 (by decide),
         by simpa [PROXIMITY_THRESHOLD_METERS] using h2.2.1 (by decide),
         by simpa [PROXIMITY_THRESHOLD_METERS] using h2.2.2.2 (by decide)⟩

/-! ## Basic lemmas on the set and record operations -/

theorem setHas_true_of_mem {l : List String} {x : String} (h : x ∈ l) :
    setHas l x = true := by
  simp [setHas, List.elem_iff, h]

theorem setHas_false_of_not_mem {l : List String} {x : String} (h : x ∉ l) :
    setHas l x = false := by
  simp [setHas, List.elem_iff, h]

theorem mem_of_setHas {l : List String} {x : String} (h : setHas l x = true) :
    x ∈ l := by
  by_cases hm : x ∈ l
  · exact hm
  · rw [setHas_false_of_not_mem hm] at h
    cases h

theorem setHas_setAdd_self (l : List String) (x : String) :
    setHas (setAdd l x) x = true := by
  unfold setAdd
  split
  · exact setHas_true_of_mem (mem_of_setHas (by assumption))
  · exact setHas_true_of_mem (by simp)

theorem setHas_setAdd_ne (l : List String) (x y : String) (h : y ≠ x) :
    setHas (setAdd l x) y = setHas l y := by
  unfold setAdd
  split
  · rfl
  · by_cases hy : y ∈ l
    · rw [setHas_true_of_mem hy, setHas_true_of_mem (by simp [hy])]
    · rw [setHas_false_of_not_mem hy, setHas_false_of_not_mem (by simp [hy, h])]

theorem setHas_setDelete_self (l : List String) (x : String) :
    setHas (setDelete l x) x = false := by
  apply setHas_false_of_not_mem
  intro hm
  have := (List.mem_filter.mp hm).2
  simp at this

theorem setHas_setDelete_ne (l : List String) (x y : String) (h : y ≠ x) :
    setHas (setDelete l x) y = setHas l y := by
  unfold setDelete
  by_cases hy : y ∈ l
  · rw [setHas_true_of_mem hy, setHas_true_of_mem
      (List.mem_filter.mpr ⟨hy, by simp [h]⟩)]
  · rw [setHas_false_of_not_mem hy, setHas_false_of_not_mem
      (fun hm => hy (List.mem_filter.mp hm).1)]

theorem recordGet_recordSet (m : List (String × ℕ)) (k : String) (v : ℕ) :
    recordGet (recordSet m k v) k = some v := by
  unfold recordGet recordSet
  rw [List.find?_append]
  have h1 : (m.filter (fun kv => kv.1 ≠ k)).find? (fun kv => kv.1 = k) = none := by
    rw [List.find?_eq_none]
    intro kv hkv
    have h2 := (List.mem_filter.mp hkv).2
    simp only [decide_eq_true_eq] at h2 ⊢
    exact h2
  rw [h1]
  simp

/-! ## Characterization of one proximity step

The step of the forEach is rephrased through the trigger predicate, and
its effect on the alert count and the alerted flag of each place id is
isolated; ids other than the id of the processed place are untouched. -/

theorem proximityCheckStep_eq (d : Coordinate → Coordinate → ℚ) (now : ℕ)
    (u : Coordinate) (s acc : AppState) (p : Place) :
    proximityCheckStep d now u s acc p =
      if shouldTrigger d now u s p then
        { acc with
          activeAlerts := acc.activeAlerts ++
            [{ placeId := p.id
               message := "You are near " ++ p.name ++ "!"
               timestamp := now }]
          alertedPlaceIds := setAdd acc.alertedPlaceIds p.id }
      else if p.isCompleted = false ∧ ¬(d u p.location ≤ p.radius) ∧
          setHas s.alertedPlaceIds p.id = true then
        { acc with alertedPlaceIds := setDelete acc.alertedPlaceIds p.id }
      else acc := by
  unfold proximityCheckStep shouldTrigger
  cases hc : p.isCompleted <;>
    by_cases hin : d u p.location ≤ p.radius <;>
      cases hsn : snoozeSuppressed s p.id now <;>
        cases hal : setHas s.alertedPlaceIds p.id <;>
          cases hac : s.activeAlerts.any (fun a => a.placeId = p.id) <;>
            simp [hc, hin, hsn, hal, hac]

theorem proximityCheckStep_misc (d : Coordinate → Coordinate → ℚ) (now : ℕ)
    (u : Coordinate) (s acc : AppState) (p : Place) :
    (proximityCheckStep d now u s acc p).places = acc.places ∧
    (proximityCheckStep d now u s acc p).snoozedPlaceIds = acc.snoozedPlaceIds := by
  rw [proximityCheckStep_eq]
  split
  · exact ⟨rfl, rfl⟩
  · split
    · exact ⟨rfl, rfl⟩
    · exact ⟨rfl, rfl⟩

theorem proximityCheckStep_other (d : Coordinate → Coordinate → ℚ) (now : ℕ)
    (u : Coordinate) (s acc : AppState) (p : Place) (id : String)
    (h : p.id ≠ id) :
    alertCount (proximityCheckStep d now u s acc p) id = alertCount acc id ∧
    setHas (proximityCheckStep d now u s acc p).alertedPlaceIds id =
      setHas acc.alertedPlaceIds id := by
  rw [proximityCheckStep_eq]
  split
  · constructor
    · simp [alertCount, List.filter_append, h]
    · exact setHas_setAdd_ne acc.alertedPlaceIds p.id id (Ne.symm h)
  · split
    · exact ⟨rfl, setHas_setDelete_ne acc.alertedPlaceIds p.id id (Ne.symm h)⟩
    · exact ⟨rfl, rfl⟩

theorem proximityCheckStep_self (d : Coordinate → Coordinate → ℚ) (now : ℕ)
    (u : Coordinate) (s acc : AppState) (p : Place) :
    alertCount (proximityCheckStep d now u s acc p) p.id =
      alertCount acc p.id + (if shouldTrigger d now u s p then 1 else 0) ∧
    setHas (proximityCheckStep d now u s acc p).alertedPlaceIds p.id =
      (if shouldTrigger d now u s p then true
       else if p.isCompleted = false ∧ ¬(d u p.location ≤ p.radius) ∧
           setHas s.alertedPlaceIds p.id = true then false
       else setHas acc.alertedPlaceIds p.id) := by
  rw [proximityCheckStep_eq]
  split
  · constructor
    · simp [alertCount, List.filter_append]
    · exact setHas_setAdd_self acc.alertedPlaceIds p.id
  · split
    · exact ⟨rfl, setHas_setDelete_self acc.alertedPlaceIds p.id⟩
    · exact ⟨by simp, rfl⟩

/-! ## Fold lemmas for one full evaluation -/

theorem foldl_step_misc (d : Coordinate → Coordinate → ℚ) (now : ℕ)
    (u : Coordinate) (s : AppState) (ps : List Place) :
    ∀ acc : AppState,
      (ps.foldl (proximityCheckStep d now u s) acc).places = acc.places ∧
      (ps.foldl (proximityCheckStep d now u s) acc).snoozedPlaceIds =
        acc.snoozedPlaceIds := by
  induction ps with
  | nil => exact fun acc => ⟨rfl, rfl⟩
  | cons p rest ih =>
      intro acc
      have h := proximityCheckStep_misc d now u s acc p
      simp only [List.foldl_cons]
      exact ⟨(ih _).1.trans h.1, (ih _).2.trans h.2⟩

theorem proximityCheck_misc (d : Coordinate → Coordinate → ℚ) (now : ℕ)
    (u : Coordinate) (s : AppState) :
    (proximityCheck d now u s).places = s.places ∧
    (proximityCheck d now u s).snoozedPlaceIds = s.snoozedPlaceIds :=
  foldl_step_misc d now u s s.places s

theorem foldl_step_other (d : Coordinate → Coordinate → ℚ) (now : ℕ)
    (u : Coordinate) (s : AppState) (id : String) (ps : List Place)
    (hps : ∀ q ∈ ps, q.id ≠ id) :
    ∀ acc : AppState,
      alertCount (ps.foldl (proximityCheckStep d now u s) acc) id =
        alertCount acc id ∧
      setHas (ps.foldl (proximityCheckStep d now u s) acc).alertedPlaceIds id =
        setHas acc.alertedPlaceIds id := by
  induction ps with
  | nil => exact fun acc => ⟨rfl, rfl⟩
  | cons p rest ih =>
      intro acc
      have hp : p.id ≠ id := hps p (List.mem_cons_self p rest)
      have hrest : ∀ q ∈ rest, q.id ≠ id :=
        fun q hq => hps q (List.mem_cons_of_mem p hq)
      have h := proximityCheckStep_other d now u s acc p id hp
      simp only [List.foldl_cons]
      exact ⟨((ih hrest) _).1.trans h.1, ((ih hrest) _).2.trans h.2⟩

/-- Split a place out of a collection with duplicate-free ids. -/
theorem exists_split_of_mem_nodup (ps : List Place) (p : Place)
    (hmem : p ∈ ps) (hnd : (ps.map Place.id).Nodup) :
    ∃ l1 l2, ps = l1 ++ p :: l2 ∧ (∀ q ∈ l1, q.id ≠ p.id) ∧
      (∀ q ∈ l2, q.id ≠ p.id) := by
  obtain ⟨l1, l2, rfl⟩ := List.append_of_mem hmem
  rw [List.map_append, List.map_cons] at hnd
  obtain ⟨h1, h2, hdisj⟩ := List.nodup_append.mp hnd
  refine ⟨l1, l2, rfl, ?_, ?_⟩
  · intro q hq he
    exact hdisj (he ▸ List.mem_map_of_mem Place.id hq) (List.mem_cons_self _ _)
  · intro q hq he
    exact (List.nodup_cons.mp h2).1 (he ▸ List.mem_map_of_mem Place.id hq)

/-- Effect of one full proximity evaluation on the alert count and the
alerted flag of one place, in a collection with duplicate-free ids. -/
theorem proximityCheck_spec (d : Coordinate → Coordinate → ℚ) (now : ℕ)
    (u : Coordinate) (s : AppState) (p : Place)
    (hmem : p ∈ s.places) (hnd : (s.places.map Place.id).Nodup) :
    alertCount (proximityCheck d now u s) p.id =
      alertCount s p.id + (if shouldTrigger d now u s p then 1 else 0) ∧
    setHas (proximityCheck d now u s).alertedPlaceIds p.id =
      (if shouldTrigger d now u s p then true
       else if p.isCompleted = false ∧ ¬(d u p.location ≤ p.radius) ∧
           setHas s.alertedPlaceIds p.id = true then false
       else setHas s.alertedPlaceIds p.id) := by
  obtain ⟨l1, l2, hsplit, h1, h2⟩ := exists_split_of_mem_nodup s.places p hmem hnd
  unfold proximityCheck
  rw [hsplit, List.foldl_append, List.foldl_cons]
  have hf1 := foldl_step_other d now u s p.id l1 h1 s
  have hstep := proximityCheckStep_self d now u s
    (l1.foldl (proximityCheckStep d now u s) s) p
  have hf2 := foldl_step_other d now u s p.id l2 h2
    (proximityCheckStep d now u s (l1.foldl (proximityCheckStep d now u s) s) p)
  rw [hf2.1, hf2.2, hstep.1, hstep.2, hf1.1, hf1.2]
  exact ⟨rfl, rfl⟩

theorem alertCount_eq_zero_iff (s : AppState) (id : String) :
    alertCount s id = 0 ↔
      s.activeAlerts.any (fun a => a.placeId = id) = false := by
  rw [alertCount, List.length_eq_zero, List.filter_eq_nil_iff, List.any_eq_false]

/-- With the flag of a continuing entry set, an inside evaluation leaves
both the count and the flag of that place unchanged. -/
theorem proximityCheck_stable_inside (d : Coordinate → Coordinate → ℚ)
    (now : ℕ) (u : Coordinate) (s : AppState) (p : Place)
    (hmem : p ∈ s.places) (hnd : (s.places.map Place.id).Nodup)
    (hin : d u p.location ≤ p.radius)
    (halerted : setHas s.alertedPlaceIds p.id = true) :
    alertCount (proximityCheck d now u s) p.id = alertCount s p.id ∧
    setHas (proximityCheck d now u s).alertedPlaceIds p.id = true := by
  have hst : shouldTrigger d now u s p = false := by
    simp [shouldTrigger, halerted]
  have h := proximityCheck_spec d now u s p hmem hnd
  rw [hst] at h
  constructor
  · rw [h.1]
    simp
  · rw [h.2]
    simp [hin, halerted]

/-- Running any further inside evaluations after the alert fired keeps
exactly one alert and the alerted flag for that place. -/
theorem runProximity_stable (d : Coordinate → Coordinate → ℚ)
    (evals : List (ℕ × Coordinate)) :
    ∀ (s : AppState) (p : Place), p ∈ s.places →
      (s.places.map Place.id).Nodup →
      (∀ e ∈ evals, d e.2 p.location ≤ p.radius) →
      setHas s.alertedPlaceIds p.id = true →
      alertCount (runProximity d evals s) p.id = alertCount s p.id ∧
      setHas (runProximity d evals s).alertedPlaceIds p.id = true ∧
      (runProximity d evals s).places = s.places ∧
      (runProximity d evals s).snoozedPlaceIds = s.snoozedPlaceIds := by
  induction evals with
  | nil => exact fun s p _ _ _ h => ⟨rfl, h, rfl, rfl⟩
  | cons e rest ih =>
      intro s p hmem hnd hin halerted
      have hstep := proximityCheck_stable_inside d e.1 e.2 s p hmem hnd
        (hin e (List.mem_cons_self e rest)) halerted
      have hmisc := proximityCheck_misc d e.1 e.2 s
      have hmem2 : p ∈ (proximityCheck d e.1 e.2 s).places := by
        rw [hmisc.1]; exact hmem
      have hnd2 : ((proximityCheck d e.1 e.2 s).places.map Place.id).Nodup := by
        rw [hmisc.1]; exact hnd
      have hin2 : ∀ x ∈ rest, d x.2 p.location ≤ p.radius :=
        fun x hx => hin x (List.mem_cons_of_mem e hx)
      have hrest := ih (proximityCheck d e.1 e.2 s) p hmem2 hnd2 hin2 hstep.2
      have hrun : runProximity d (e :: rest) s =
          runProximity d rest (proximityCheck d e.1 e.2 s) := rfl
      rw [hrun]
      exact ⟨hrest.1.trans hstep.1, hrest.2.1,
        hrest.2.2.1.trans hmisc.1, hrest.2.2.2.trans hmisc.2⟩


/-! ## Snooze claim (C3) -/

/-- C3: snoozing at time T records an expiry of exactly T + 300000 ms
for the place, empties the active alerts and the alerted flag for it;
with the user inside the radius, an evaluation at any time strictly
before the expiry creates no new alert for the place, and a following
evaluation at any time at or after the expiry creates one. -/
theorem claim3_snooze_suppresses_and_expires
    (d : Coordinate → Coordinate → ℚ) (T t1 t4 : ℕ) (u1 u4 : Coordinate)
    (s : AppState) (p : Place)
    (hmem : p ∈ s.places) (hnd : (s.places.map Place.id).Nodup)
    (hnc : p.isCompleted = false)
    (ht1 : t1 < T + 300000) (ht4 : T + 300000 ≤ t4)
    (hin1 : d u1 p.location ≤ p.radius) (hin4 : d u4 p.location ≤ p.radius) :
    recordGet (handleSnoozeAlert T p.id s).snoozedPlaceIds p.id =
      some (T + 300000) ∧
    alertCount (handleSnoozeAlert T p.id s) p.id = 0 ∧
    setHas (handleSnoozeAlert T p.id s).alertedPlaceIds p.id = false ∧
    alertCount (proximityCheck d t1 u1 (handleSnoozeAlert T p.id s)) p.id = 0 ∧
    alertCount (proximityCheck d t4 u4
      (proximityCheck d t1 u1 (handleSnoozeAlert T p.id s))) p.id = 1 := by
  have hget : recordGet (handleSnoozeAlert T p.id s).snoozedPlaceIds p.id =
      some (T + 300000) := by
    have h := recordGet_recordSet s.snoozedPlaceIds p.id (T + 5 * 60 * 1000)
    rw [show T + 5 * 60 * 1000 = T + 300000 by norm_num] at h
    exact h
  have hcount0 : alertCount (handleSnoozeAlert T p.id s) p.id = 0 :=
    alertCount_filter_ne s p.id
  have halert0 : setHas (handleSnoozeAlert T p.id s).alertedPlaceIds p.id = false :=
    setHas_setDelete_self s.alertedPlaceIds p.id
  have hmem0 : p ∈ (handleSnoozeAlert T p.id s).places := hmem
  have hnd0 : ((handleSnoozeAlert T p.id s).places.map Place.id).Nodup := hnd
  have hsn1 : snoozeSuppressed (handleSnoozeAlert T p.id s) p.id t1 = true := by
    unfold snoozeSuppressed
    rw [hget]
    simp only [Bool.and_eq_true, decide_eq_true_eq, ne_eq]
    exact ⟨by omega, ht1⟩
  have hst1 : shouldTrigger d t1 u1 (handleSnoozeAlert T p.id s) p = false := by
    simp [shouldTrigger, hsn1]
  have hspec1 := proximityCheck_spec d t1 u1 (handleSnoozeAlert T p.id s) p
    hmem0 hnd0
  rw [hst1] at hspec1
  have hcount1 : alertCount (proximityCheck d t1 u1
      (handleSnoozeAlert T p.id s)) p.id = 0 := by
    rw [hspec1.1, hcount0]
    simp
  have halert1 : setHas (proximityCheck d t1 u1
      (handleSnoozeAlert T p.id s)).alertedPlaceIds p.id = false := by
    rw [hspec1.2, halert0]
    simp [hin1]
  have hmisc1 := proximityCheck_misc d t1 u1 (handleSnoozeAlert T p.id s)
  have hmem1 : p ∈ (proximityCheck d t1 u1 (handleSnoozeAlert T p.id s)).places := by
    rw [hmisc1.1]; exact hmem0
  have hnd1 : ((proximityCheck d t1 u1
      (handleSnoozeAlert T p.id s)).places.map Place.id).Nodup := by
    rw [hmisc1.1]; exact hnd0
  have hsn4 : snoozeSuppressed (proximityCheck d t1 u1
      (handleSnoozeAlert T p.id s)) p.id t4 = false := by
    unfold snoozeSuppressed
    rw [hmisc1.2, hget]
    simp only [Bool.and_eq_false_iff, decide_eq_false_iff_not, not_lt]
    right
    exact ht4
  have hany4 := (alertCount_eq_zero_iff _ p.id).mp hcount1
  have hst4 : shouldTrigger d t4 u4 (proximityCheck d t1 u1
      (handleSnoozeAlert T p.id s)) p = true := by
    simp [shouldTrigger, hnc, hin4, hsn4, halert1, hany4]
  have hspec4 := proximityCheck_spec d t4 u4 (proximityCheck d t1 u1
    (handleSnoozeAlert T p.id s)) p hmem1 hnd1
  rw [hst4] at hspec4
  refine ⟨hget, hcount0, halert0, hcount1, ?_⟩
  rw [hspec4.1, hcount1]
  simp

/-- Concrete one-place state for the snooze witness. -/
def claim3Place : Place :=
  { id := "0"
    name := "P"
    location := ⟨0, 0⟩
    category := PlaceCategory.Generic
    radius := 200
    notes := some ""
    isCompleted := false
    createdAt := 0
    listId := none }

def claim3State : AppState :=
  { initialState with places := [claim3Place] }

/-- The distance oracle used by the concrete witnesses: the latitude of
the user position, so a user at latitude 0 is inside any radius and a
user at latitude 300 is outside a radius of 200. -/
def claim3Dist : Coordinate → Coordinate → ℚ := fun u _ => u.lat

/-- Witness for C3: snoozing at T = 2 and evaluating at T + 4 minutes
and then T + 6 minutes, inside the radius, yields no alert and then
exactly one. -/
theorem claim3_snooze_witness :
    alertCount (proximityCheck claim3Dist 240002 ⟨0, 0⟩
      (handleSnoozeAlert 2 "0" claim3State)) "0" = 0 ∧
    alertCount (proximityCheck claim3Dist 360002 ⟨0, 0⟩
      (proximityCheck claim3Dist 240002 ⟨0, 0⟩
        (handleSnoozeAlert 2 "0" claim3State))) "0" = 1 := by
  have h := claim3_snooze_suppresses_and_expires claim3Dist 2 240002 360002
    ⟨0, 0⟩ ⟨0, 0⟩ claim3State claim3Place
    (by decide) (by decide) (by decide) (by decide) (by decide)
    (by decide) (by decide)
  exact ⟨h.2.2.2.1, h.2.2.2.2⟩

/-! ## Exit and re-entry claim (C2)

The claim as stated says that enter, exit, re-enter with no other
user action creates exactly two alerts.  On the code the first alert
card is not removed by exiting the radius, and the trigger condition
requires that no alert card is shown for the place, so the re-entry
evaluation is suppressed by the still-displayed card and only one
alert is ever created; the counterexample below evaluates the exact
sequence.  The amended claim inserts the one missing user action: the
first alert is dismissed before re-entry, after which the sequence
creates exactly two alerts (one per entry). -/

/-- Concrete one-place state for the C2 counterexample and witness. -/
def claim2Place : Place :=
  { id := "0"
    name := "P"
    location := ⟨0, 0⟩
    category := PlaceCategory.Generic
    radius := 200
    notes := some ""
    isCompleted := false
    createdAt := 0
    listId := none }

def claim2Start : AppState :=
  { initialState with places := [claim2Place] }

/-- Distance oracle for the concrete C2 states: the latitude of the user
position, making latitude 0 inside the radius 200 and latitude 300
strictly outside. -/
def claim2Dist : Coordinate → Coordinate → ℚ := fun u _ => u.lat

/-- Counterexample to C2 as stated: from a fresh state, the user enters
the radius (one alert is created), exits (distance 300 > 200), and
re-enters, with no other user action in between.  The code creates
exactly one alert over the whole sequence, not two: the still-displayed
alert card suppresses the re-entry trigger.  No step of the sequence
removes an alert, so the final count equals the number created. -/
theorem claim2_counterexample :
    (claim2Dist ⟨0, 0⟩ claim2Place.location ≤ claim2Place.radius) ∧
    ¬(claim2Dist ⟨300, 0⟩ claim2Place.location ≤ claim2Place.radius) ∧
    alertCount (proximityCheck claim2Dist 1 ⟨0, 0⟩ claim2Start) "0" = 1 ∧
    alertCount (runProximity claim2Dist
      [(1, ⟨0, 0⟩), (2, ⟨300, 0⟩), (3, ⟨0, 0⟩)] claim2Start) "0" = 1 ∧
    (runProximity claim2Dist
      [(1, ⟨0, 0⟩), (2, ⟨300, 0⟩), (3, ⟨0, 0⟩)] claim2Start).activeAlerts.length
      = 1 := by
  decide

/-- C2 amended: for a fresh non-completed place, the sequence enter
(alert fires), exit, dismiss of the shown alert, re-enter creates
exactly two alerts in total: one at the first evaluation and one at the
re-entry evaluation, the count moving 1, 1, 0, 1 along the sequence. -/
theorem claim2_amended (d : Coordinate → Coordinate → ℚ) (t1 t2 t3 : ℕ)
    (u1 u2 u3 : Coordinate) (s : AppState) (p : Place)
    (hmem : p ∈ s.places) (hnd : (s.places.map Place.id).Nodup)
    (hnc : p.isCompleted = false)
    (hin1 : d u1 p.location ≤ p.radius)
    (hout2 : ¬(d u2 p.location ≤ p.radius))
    (hin3 : d u3 p.location ≤ p.radius)
    (hsn : recordGet s.snoozedPlaceIds p.id = none)
    (hcount : alertCount s p.id = 0)
    (halerted : setHas s.alertedPlaceIds p.id = false) :
    alertCount (proximityCheck d t1 u1 s) p.id = 1 ∧
    alertCount (proximityCheck d t2 u2 (proximityCheck d t1 u1 s)) p.id = 1 ∧
    alertCount (handleDismissAlert p.id
      (proximityCheck d t2 u2 (proximityCheck d t1 u1 s))) p.id = 0 ∧
    alertCount (proximityCheck d t3 u3 (handleDismissAlert p.id
      (proximityCheck d t2 u2 (proximityCheck d t1 u1 s)))) p.id = 1 := by
  -- entry evaluation: the alert fires
  have hsn0 : snoozeSuppressed s p.id t1 = false := by
    unfold snoozeSuppressed
    rw [hsn]
  have hany0 := (alertCount_eq_zero_iff s p.id).mp hcount
  have hst1 : shouldTrigger d t1 u1 s p = true := by
    simp [shouldTrigger, hnc, hin1, hsn0, halerted, hany0]
  have hspec1 := proximityCheck_spec d t1 u1 s p hmem hnd
  rw [hst1] at hspec1
  have hc1 : alertCount (proximityCheck d t1 u1 s) p.id = 1 := by
    rw [hspec1.1, hcount]
    simp
  have ha1 : setHas (proximityCheck d t1 u1 s).alertedPlaceIds p.id = true := by
    rw [hspec1.2]
    simp
  have hmisc1 := proximityCheck_misc d t1 u1 s
  have hmem1 : p ∈ (proximityCheck d t1 u1 s).places := by
    rw [hmisc1.1]; exact hmem
  have hnd1 : ((proximityCheck d t1 u1 s).places.map Place.id).Nodup := by
    rw [hmisc1.1]; exact hnd
  -- exit evaluation: the alerted flag is cleared, the alert card stays
  have hst2 : shouldTrigger d t2 u2 (proximityCheck d t1 u1 s) p = false := by
    simp [shouldTrigger, hout2]
  have hspec2 := proximityCheck_spec d t2 u2 (proximityCheck d t1 u1 s) p
    hmem1 hnd1
  rw [hst2] at hspec2
  have hc2 : alertCount (proximityCheck d t2 u2
      (proximityCheck d t1 u1 s)) p.id = 1 := by
    rw [hspec2.1, hc1]
    simp
  have ha2 : setHas (proximityCheck d t2 u2
      (proximityCheck d t1 u1 s)).alertedPlaceIds p.id = false := by
    rw [hspec2.2]
    simp [hnc, hout2, ha1]
  have hmisc2 := proximityCheck_misc d t2 u2 (proximityCheck d t1 u1 s)
  -- the dismissal clears the card
  have hc3 : alertCount (handleDismissAlert p.id
      (proximityCheck d t2 u2 (proximityCheck d t1 u1 s))) p.id = 0 :=
    alertCount_filter_ne (proximityCheck d t2 u2 (proximityCheck d t1 u1 s)) p.id
  -- re-entry evaluation: a second alert fires
  have hmem3 : p ∈ (handleDismissAlert p.id
      (proximityCheck d t2 u2 (proximityCheck d t1 u1 s))).places := by
    show p ∈ (proximityCheck d t2 u2 (proximityCheck d t1 u1 s)).places
    rw [hmisc2.1]; exact hmem1
  have hnd3 : ((handleDismissAlert p.id
      (proximityCheck d t2 u2 (proximityCheck d t1 u1 s))).places.map
        Place.id).Nodup := by
    show ((proximityCheck d t2 u2
      (proximityCheck d t1 u1 s)).places.map Place.id).Nodup
    rw [hmisc2.1]; exact hnd1
  have hsn3 : snoozeSuppressed (handleDismissAlert p.id
      (proximityCheck d t2 u2 (proximityCheck d t1 u1 s))) p.id t3 = false := by
    unfold snoozeSuppressed
    show (match recordGet (proximityCheck d t2 u2
      (proximityCheck d t1 u1 s)).snoozedPlaceIds p.id with
      | some e => e ≠ 0 && decide (t3 < e)
      | none => false) = false
    rw [hmisc2.2, hmisc1.2, hsn]
  have ha3 : setHas (handleDismissAlert p.id
      (proximityCheck d t2 u2 (proximityCheck d t1 u1 s))).alertedPlaceIds
        p.id = false := ha2
  have hany3 := (alertCount_eq_zero_iff (handleDismissAlert p.id
    (proximityCheck d t2 u2 (proximityCheck d t1 u1 s))) p.id).mp hc3
  have hst4 : shouldTrigger d t3 u3 (handleDismissAlert p.id
      (proximityCheck d t2 u2 (proximityCheck d t1 u1 s))) p = true := by
    simp [shouldTrigger, hnc, hin3, hsn3, ha3, hany3]
  have hspec4 := proximityCheck_spec d t3 u3 (handleDismissAlert p.id
    (proximityCheck d t2 u2 (proximityCheck d t1 u1 s))) p hmem3 hnd3
  rw [hst4] at hspec4
  refine ⟨hc1, hc2, hc3, ?_⟩
  rw [hspec4.1, hc3]
  simp

/-- Witness for C2 amended: the concrete enter, exit, dismiss, re-enter
sequence ends with one shown alert, the second one created. -/
theorem claim2_amended_witness :
    alertCount (proximityCheck claim2Dist 4 ⟨0, 0⟩ (handleDismissAlert "0"
      (proximityCheck claim2Dist 3 ⟨300, 0⟩
        (proximityCheck claim2Dist 2 ⟨0, 0⟩ claim2Start)))) "0" = 1 := by
  have h := claim2_amended claim2Dist 2 3 4 ⟨0, 0⟩ ⟨300, 0⟩ ⟨0, 0⟩
    claim2Start claim2Place (by decide) (by decide) (by decide) (by decide)
    (by decide) (by decide) (by decide) (by decide) (by decide)
  exact h.2.2.2

/-! ## The action language of the App and reachable states -/

inductive AppAction where
  | proximity (dist : Coordinate → Coordinate → ℚ) (now : ℕ) (userLoc : Coordinate)
  | addPlace (now : ℕ) (location : Coordinate) (name : String)
      (userNotes : Option String) (givenId : Option String)
  | enrich (id : String) (initialNote : String) (enhancement : Option Enhancement)
  | mapClick (coord : Coordinate)
  | confirmDraft (now : ℕ)
  | cancelDraft
  | placeMove (id : String) (location : Coordinate)
  | draftMove (location : Coordinate)
  | toggleTask (id : String)
  | deleteTask (id : String)
  | updatePlace (id : String) (u : PlaceUpdate)
  | dismissAlert (placeId : String)
  | snoozeAlert (now : ℕ) (placeId : String)
  | selectPlace (id : Option String)
  | setDraftName (v : String)
  | setDraftNote (v : String)

def applyAction : AppAction → AppState → AppState
  | AppAction.proximity dist now userLoc, s => proximityCheck dist now userLoc s
  | AppAction.addPlace now location name userNotes givenId, s =>
      (handleAddPlace now location name userNotes givenId s).1
  | AppAction.enrich id initialNote enhancement, s =>
      aiEnhancementCallback id initialNote enhancement s
  | AppAction.mapClick coord, s => handleMapClick coord s
  | AppAction.confirmDraft now, s => handleConfirmDraft now s
  | AppAction.cancelDraft, s => handleCancelDraft s
  | AppAction.placeMove id location, s => handlePlaceMove id location s
  | AppAction.draftMove location, s => handleDraftMove location s
  | AppAction.toggleTask id, s => handleToggleTask id s
  | AppAction.deleteTask id, s => handleDeleteTask id s
  | AppAction.updatePlace id u, s => handleUpdatePlace id u s
  | AppAction.dismissAlert placeId, s => handleDismissAlert placeId s
  | AppAction.snoozeAlert now placeId, s => handleSnoozeAlert now placeId s
  | AppAction.selectPlace id, s => { s with selectedPlaceId := id }
  | AppAction.setDraftName v, s => { s with draftName := v }
  | AppAction.setDraftNote v, s => { s with draftNote := v }

/-- States reachable from the initial state by any handler sequence. -/
inductive Reachable : AppState → Prop where
  | init : Reachable initialState
  | step (a : AppAction) (s : AppState) (h : Reachable s) :
      Reachable (applyAction a s)

/-- The id that a creation action will assign is not already carried by
a place in the collection.  The ids are Date.now() strings, so this
fails only when two places are created in the same millisecond. -/
@[reducible] def freshOk : AppAction → AppState → Prop
  | AppAction.addPlace now _ _ _ givenId, s =>
      newPlaceId now givenId ∉ s.places.map Place.id
  | AppAction.confirmDraft now, s => Nat.repr now ∉ s.places.map Place.id
  | _, _ => True

/-- States reachable when every place creation uses a fresh id. -/
inductive ReachableFresh : AppState → Prop where
  | init : ReachableFresh initialState
  | step (a : AppAction) (s : AppState) (h : ReachableFresh s)
      (hfresh : freshOk a s) : ReachableFresh (applyAction a s)

def PlacesNodupIds (s : AppState) : Prop := (s.places.map Place.id).Nodup

def AtMostOneAlertPerPlace (s : AppState) : Prop := ∀ id, alertCount s id ≤ 1

theorem map_ids_of_map (l : List Place) (f : Place → Place)
    (hf : ∀ p, (f p).id = p.id) : (l.map f).map Place.id = l.map Place.id := by
  induction l with
  | nil => rfl
  | cons p rest ih => simp [hf, ih]

theorem alertCount_zero_of_shouldTrigger {d : Coordinate → Coordinate → ℚ}
    {now : ℕ} {u : Coordinate} {s : AppState} {p : Place}
    (h : shouldTrigger d now u s p = true) : alertCount s p.id = 0 := by
  unfold shouldTrigger at h
  simp only [Bool.and_eq_true, Bool.not_eq_true'] at h
  exact (alertCount_eq_zero_iff s p.id).mpr h.2

/-- During one evaluation, the accumulated alert list keeps at most one
alert per id, provided the snapshot place ids are duplicate free. -/
theorem foldl_atMostOne (d : Coordinate → Coordinate → ℚ) (now : ℕ)
    (u : Coordinate) (s : AppState) (ps : List Place) :
    ∀ acc : AppState,
      (ps.map Place.id).Nodup →
      (∀ q ∈ ps, alertCount acc q.id = alertCount s q.id) →
      (∀ id, alertCount acc id ≤ 1) →
      ∀ id, alertCount (ps.foldl (proximityCheckStep d now u s) acc) id ≤ 1 := by
  induction ps with
  | nil => exact fun acc _ _ hacc id => hacc id
  | cons p rest ih =>
      intro acc hnd hsame hacc
      rw [List.map_cons, List.nodup_cons] at hnd
      simp only [List.foldl_cons]
      apply ih (proximityCheckStep d now u s acc p) hnd.2
      · intro q hq
        have hqne : q.id ≠ p.id := by
          intro he
          exact hnd.1 (he ▸ List.mem_map_of_mem Place.id hq)
        rw [(proximityCheckStep_other d now u s acc p q.id
          (fun hh => hqne hh.symm)).1]
        exact hsame q (List.mem_cons_of_mem p hq)
      · intro j
        by_cases hj : j = p.id
        · subst hj
          rw [(proximityCheckStep_self d now u s acc p).1]
          by_cases htr : shouldTrigger d now u s p = true
          · rw [htr]
            have h0 : alertCount acc p.id = 0 := by
              rw [hsame p (List.mem_cons_self p rest)]
              exact alertCount_zero_of_shouldTrigger htr
            rw [h0]
            simp
          · rw [if_neg htr, Nat.add_zero]
            exact hacc p.id
        · rw [(proximityCheckStep_other d now u s acc p j
            (fun hh => hj hh.symm)).1]
          exact hacc j

theorem proximityCheck_atMostOne (d : Coordinate → Coordinate → ℚ) (now : ℕ)
    (u : Coordinate) (s : AppState)
    (hnd : PlacesNodupIds s) (ham : AtMostOneAlertPerPlace s) :
    AtMostOneAlertPerPlace (proximityCheck d now u s) :=
  fun id => foldl_atMostOne d now u s s.places s hnd (fun _ _ => rfl) ham id

theorem atMostOne_filter (s : AppState) (pred : Alert → Bool)
    (ham : AtMostOneAlertPerPlace s) :
    ∀ id, alertCount { s with activeAlerts := s.activeAlerts.filter pred } id ≤ 1 := by
  intro id
  refine le_trans ?_ (ham id)
  simp only [alertCount]
  exact List.Sublist.length_le
    (List.Sublist.filter _ (List.filter_sublist s.activeAlerts))

/-- Every handler preserves duplicate-free place ids (assuming fresh
creation ids) and the at-most-one-alert-per-place property. -/
theorem applyAction_invariant (a : AppAction) (s : AppState)
    (hfresh : freshOk a s) (hnd : PlacesNodupIds s)
    (ham : AtMostOneAlertPerPlace s) :
    PlacesNodupIds (applyAction a s) ∧
    AtMostOneAlertPerPlace (applyAction a s) := by
  cases a with
  | proximity d now u =>
      refine ⟨?_, proximityCheck_atMostOne d now u s hnd ham⟩
      show ((proximityCheck d now u s).places.map Place.id).Nodup
      rw [(proximityCheck_misc d now u s).1]
      exact hnd
  | addPlace now location name userNotes givenId =>
      constructor
      · show ((_ :: s.places).map Place.id).Nodup
        rw [List.map_cons, List.nodup_cons]
        exact ⟨hfresh, hnd⟩
      · exact fun id => ham id
  | enrich id initialNote enhancement =>
      cases enhancement with
      | none => exact ⟨hnd, ham⟩
      | some e =>
          constructor
          · show ((s.places.map _).map Place.id).Nodup
            rw [map_ids_of_map s.places _ (fun p => by
              by_cases h : p.id = id <;> simp [h])]
            exact hnd
          · exact fun j => ham j
  | mapClick coord => exact ⟨hnd, fun id => ham id⟩
  | confirmDraft now =>
      cases hd : s.draftLocation with
      | none =>
          constructor
          · show PlacesNodupIds (handleConfirmDraft now s)
            unfold handleConfirmDraft
            rw [hd]
            exact hnd
          · intro id
            show alertCount (handleConfirmDraft now s) id ≤ 1
            unfold handleConfirmDraft
            rw [hd]
            exact ham id
      | some location =>
          constructor
          · show PlacesNodupIds (handleConfirmDraft now s)
            unfold handleConfirmDraft PlacesNodupIds
            rw [hd]
            simp only [handleAddPlace, newPlaceId]
            rw [List.map_cons, List.nodup_cons]
            exact ⟨hfresh, hnd⟩
          · intro id
            show alertCount (handleConfirmDraft now s) id ≤ 1
            unfold handleConfirmDraft
            rw [hd]
            exact ham id
  | cancelDraft => exact ⟨hnd, fun id => ham id⟩
  | placeMove id location =>
      constructor
      · show ((s.places.map _).map Place.id).Nodup
        rw [map_ids_of_map s.places _ (fun p => by
          by_cases h : p.id = id <;> simp [h])]
        exact hnd
      · exact fun j => atMostOne_filter s _ ham j
  | draftMove location => exact ⟨hnd, fun id => ham id⟩
  | toggleTask id =>
      constructor
      · show ((s.places.map _).map Place.id).Nodup
        rw [map_ids_of_map s.places _ (fun p => by
          by_cases h : p.id = id <;> simp [h])]
        exact hnd
      · exact fun j => ham j
  | deleteTask id =>
      constructor
      · show ((s.places.filter _).map Place.id).Nodup
        exact List.Nodup.sublist
          (List.Sublist.map Place.id (List.filter_sublist s.places)) hnd
      · exact fun j => ham j
  | updatePlace id u =>
      constructor
      · show ((s.places.map _).map Place.id).Nodup
        rw [map_ids_of_map s.places _ (fun p => by
          by_cases h : p.id = id <;> simp [h, mergeUpdate])]
        exact hnd
      · exact fun j => ham j
  | dismissAlert placeId =>
      exact ⟨hnd, fun j => atMostOne_filter s _ ham j⟩
  | snoozeAlert now placeId =>
      exact ⟨hnd, fun j => atMostOne_filter s _ ham j⟩
  | selectPlace id => exact ⟨hnd, fun j => ham j⟩
  | setDraftName v => exact ⟨hnd, fun j => ham j⟩
  | setDraftNote v => exact ⟨hnd, fun j => ham j⟩

theorem reachableFresh_invariant (s : AppState) (h : ReachableFresh s) :
    PlacesNodupIds s ∧ AtMostOneAlertPerPlace s := by
  induction h with
  | init => exact ⟨List.nodup_nil, fun _ => Nat.zero_le 1⟩
  | step a s h hfresh ih => exact applyAction_invariant a s hfresh ih.1 ih.2

/-! ## Continuous-occupancy claim (C1)

The claim as stated fails on the code in two corners, both exercised by
the counterexample below.  First, a snooze taken before the observed
window suppresses the alert entirely: three consecutive inside
evaluations with no action between them create zero alerts, not one,
when the place is still snoozed.  Second, place ids are Date.now()
strings, so two places created in the same millisecond share an id, and
one evaluation then appends two alerts with the same place id, because
the trigger test reads the render snapshot for both places.  The
amended claim therefore starts the occupancy from a state where the
place has no unexpired snooze, no shown alert and a clear
alerted-this-entry flag, and restricts the uniqueness invariant to
histories whose creations use fresh ids. -/

/-- C1 amended: (1) starting from a state in which the place carries no
alert, no alerted-this-entry flag and no unexpired snooze at the
evaluation times, a run of three or more consecutive proximity
evaluations inside the radius with no user action in between creates
exactly one alert for the place; (2) along any history in which every
place creation uses an id not already present, every reachable state
shows at most one alert per place id. -/
theorem claim1_amended :
    (∀ (d : Coordinate → Coordinate → ℚ) (evals : List (ℕ × Coordinate))
        (s : AppState) (p : Place),
        p ∈ s.places → (s.places.map Place.id).Nodup →
        p.isCompleted = false → 3 ≤ evals.length →
        (∀ e ∈ evals, d e.2 p.location ≤ p.radius) →
        (∀ e ∈ evals, snoozeSuppressed s p.id e.1 = false) →
        alertCount s p.id = 0 →
        setHas s.alertedPlaceIds p.id = false →
        alertCount (runProximity d evals s) p.id = 1) ∧
    (∀ s : AppState, ReachableFresh s → ∀ id, alertCount s id ≤ 1) := by
  constructor
  · intro d evals s p hmem hnd hnc hlen hin hsn hcount halerted
    cases evals with
    | nil => simp at hlen
    | cons e rest =>
        have hsn0 := hsn e (List.mem_cons_self e rest)
        have hany0 := (alertCount_eq_zero_iff s p.id).mp hcount
        have hst : shouldTrigger d e.1 e.2 s p = true := by
          simp [shouldTrigger, hnc, hin e (List.mem_cons_self e rest), hsn0,
            halerted, hany0]
        have hspec := proximityCheck_spec d e.1 e.2 s p hmem hnd
        rw [hst] at hspec
        have hc1 : alertCount (proximityCheck d e.1 e.2 s) p.id = 1 := by
          rw [hspec.1, hcount]
          simp
        have ha1 : setHas (proximityCheck d e.1 e.2 s).alertedPlaceIds p.id
            = true := by
          rw [hspec.2]
          simp
        have hmisc := proximityCheck_misc d e.1 e.2 s
        have hmem1 : p ∈ (proximityCheck d e.1 e.2 s).places := by
          rw [hmisc.1]; exact hmem
        have hnd1 : ((proximityCheck d e.1 e.2 s).places.map Place.id).Nodup := by
          rw [hmisc.1]; exact hnd
        have hin1 : ∀ x ∈ rest, d x.2 p.location ≤ p.radius :=
          fun x hx => hin x (List.mem_cons_of_mem e hx)
        have hstable := runProximity_stable d rest (proximityCheck d e.1 e.2 s)
          p hmem1 hnd1 hin1 ha1
        show alertCount (runProximity d rest (proximityCheck d e.1 e.2 s)) p.id = 1
        rw [hstable.1, hc1]
  · intro s h id
    exact (reachableFresh_invariant s h).2 id

def claim1Place : Place :=
  { id := "0"
    name := "P"
    location := ⟨0, 0⟩
    category := PlaceCategory.Generic
    radius := 200
    notes := some ""
    isCompleted := false
    createdAt := 0
    listId := none }

def claim1Start : AppState :=
  { initialState with places := [claim1Place] }

def claim1Dist : Coordinate → Coordinate → ℚ := fun u _ => u.lat

def claim1SnoozedStart : AppState :=
  handleSnoozeAlert 2 "0"
    (proximityCheck claim1Dist 1 ⟨0, 0⟩ claim1Start)

def claim1DupState : AppState :=
  applyAction (AppAction.proximity claim1Dist 0 ⟨0, 0⟩)
    (applyAction (AppAction.addPlace 100 ⟨0, 0⟩ "B" none none)
      (applyAction (AppAction.addPlace 100 ⟨0, 0⟩ "A" none none) initialState))

/-- Counterexample to C1 as stated.  Left part: the place is inside the
radius and not completed, no snooze, dismiss or move action occurs
between the three evaluations at 1000, 2000 and 3000 ms, yet zero
alerts exist before and after the run (the snooze taken at 2 ms is
still live), where the claim demands exactly one.  Right part: a
reachable state (two creations in the same millisecond, then one
evaluation) whose active-alerts list carries two alerts for the same
place identifier "100", where the claim says no reachable state has
more than one. -/
theorem claim1_counterexample :
    ((claim1Dist ⟨0, 0⟩ claim1Place.location ≤ claim1Place.radius) ∧
     claim1Place.isCompleted = false ∧
     alertCount claim1SnoozedStart "0" = 0 ∧
     alertCount (runProximity claim1Dist
       [(1000, ⟨0, 0⟩), (2000, ⟨0, 0⟩), (3000, ⟨0, 0⟩)]
       claim1SnoozedStart) "0" = 0) ∧
    (Reachable claim1DupState ∧ alertCount claim1DupState "100" = 2) := by
  refine ⟨⟨by decide, by decide, by decide, by decide⟩, ?_, by decide⟩
  exact Reachable.step _ _ (Reachable.step _ _
    (Reachable.step _ _ Reachable.init))

/-- Witness for C1 amended: a fresh one-place state and three inside
evaluations produce exactly one alert, and a concrete state reached
with fresh creation ids satisfies the per-id alert bound. -/
theorem claim1_amended_witness :
    alertCount (runProximity claim1Dist
      [(1, ⟨0, 0⟩), (2, ⟨0, 0⟩), (3, ⟨0, 0⟩)] claim1Start) "0" = 1 ∧
    alertCount (applyAction (AppAction.proximity claim1Dist 5 ⟨0, 0⟩)
      (applyAction (AppAction.addPlace 7 ⟨0, 0⟩ "A" none none)
        initialState)) "7" ≤ 1 := by
  constructor
  · exact claim1_amended.1 claim1Dist [(1, ⟨0, 0⟩), (2, ⟨0, 0⟩), (3, ⟨0, 0⟩)]
      claim1Start claim1Place (by decide) (by decide) (by decide) (by decide)
      (by decide) (by decide) (by decide) (by decide)
  · exact claim1_amended.2 _
      (ReachableFresh.step _ _
        (ReachableFresh.step _ _ ReachableFresh.init (by decide)) trivial) "7"
